import Mathlib

/-!
Shallow embedding of the repository chat-with-report-public
(src/app.py, src/ui_streamlit.py): a FastAPI RAG backend whose own
logic is PDF discovery, citation-metadata normalization, prompt
assembly and response reshaping, plus a Streamlit chat client.

Modelling conventions:
* Python metadata dictionary values are modelled by `MetaVal` (strings
  and integers cover every value the code reads or writes); an absent
  key, or one mapped to None, is `Option.none`.
* Python truthiness (the `or` and `and` chaining in the source) is
  modelled by `MetaVal.truthy`, `pyOr`, `pyAnd`; the Python `str` cast
  by `MetaVal.pyStr`.
* Python strings are Lean strings (both are sequences of code points);
  the strip method is `pyStrip`, slicing to the first n characters is
  `List.take n` on the character data, and the sort builtin on path
  strings is `Finset.sort` by the lexicographic string order.
* The external collaborators (PDF extraction, embedding plus vector
  index, LLM) are parameters: a per-file loader of type
  `String → Except String (List Node)` and a query oracle of type
  `String → Except String (String × List Node)`. A raised exception is
  `Except.error`; Lean names drop the leading underscore of the Python
  ones (`load_docs` embeds the Python `_load_docs`, and so on).
-/

/-- A Python metadata value: a string or an integer. -/
inductive MetaVal where
  | str (s : String)
  | int (n : Int)
deriving DecidableEq, Repr

/-- Python truthiness of a metadata value: `0` and `""` are falsy. -/
def MetaVal.truthy : MetaVal → Bool
  | .str s => s != ""
  | .int n => n != 0

/-- The Python `str` cast applied to a metadata value. -/
def MetaVal.pyStr : MetaVal → String
  | .str s => s
  | .int n => toString n

/-- Python `a or b` on possibly absent values: keep `a` when truthy,
otherwise evaluate to `b` (also when `a` is present but falsy). -/
def pyOr (a b : Option MetaVal) : Option MetaVal :=
  match a with
  | some v => if v.truthy then some v else b
  | none => b

/-- Python `a and f a` on a possibly absent value: None stays None, a
falsy value is returned unchanged, a truthy value is mapped by `f`. -/
def pyAnd (a : Option MetaVal) (f : MetaVal → MetaVal) : Option MetaVal :=
  match a with
  | some v => if v.truthy then some (f v) else some v
  | none => none

/-- The Python strip method: remove leading and trailing whitespace
(the model uses the four ASCII whitespace characters of
`Char.isWhitespace`). -/
def pyStrip (s : String) : String :=
  String.mk (((s.data.dropWhile Char.isWhitespace).reverse.dropWhile Char.isWhitespace).reverse)

/-- The metadata keys the code reads or writes on `d.metadata` and
`node.metadata`; each field is the value of the key of the same name,
`none` when the key is absent or mapped to None. -/
structure Metadata where
  page_label : Option MetaVal := none
  page_number : Option MetaVal := none
  page : Option MetaVal := none
  page_index : Option MetaVal := none
  page_cite : Option MetaVal := none
  file_name : Option MetaVal := none
  source : Option MetaVal := none
  file_path : Option MetaVal := none
deriving DecidableEq, Repr

/-- A document fragment or retrieved chunk: text plus metadata (the
NodeWithScore wrapper and its score are irrelevant to every formatting
step of the code and omitted). -/
structure Node where
  metadata : Metadata := {}
  text : String := ""
deriving DecidableEq, Repr

/-- The name attribute of a Python Path: the part after the last
slash (paths here come from globbing for files, so there is no
trailing slash). -/
def pathName (p : String) : String :=
  String.mk ((p.data.reverse.takeWhile (fun c => c != '/')).reverse)

/-! Section: the function _discover_pdfs, src/app.py lines 46 to 51.
The two glob calls enumerate the PDF files of data/ and data/sections/
in filesystem order; the code concatenates them and returns
sorted(list(set(files))). The enumerations are the two list
parameters; set is List.toFinset, sorted is Finset.sort by the
lexicographic string order. -/

/-- The function _discover_pdfs: de-duplicate the concatenated glob
results and sort lexicographically. -/
def discover_pdfs (rootFiles sectionFiles : List String) : List String :=
  Finset.sort (· ≤ ·) (rootFiles ++ sectionFiles).toFinset

/-! Section: the function _load_docs, src/app.py lines 54 to 98. -/

/-- The RuntimeError message for an empty discovery result. -/
def noPdfsMsg : String :=
  "No PDFs found. Place your PDFs under data/ or data/sections/"

/-- The RuntimeError message for an empty loaded corpus. -/
def noTextMsg : String :=
  "No text extracted from PDFs (are they scanned without OCR?)"

/-- The page fallback chain of _load_docs:
page_label or page_number or page or page_index. -/
def pageChain (md : Metadata) : Option MetaVal :=
  pyOr md.page_label (pyOr md.page_number (pyOr md.page md.page_index))

/-- The metadata normalization _load_docs applies to each loaded
fragment of file `p`: set file_name to the short name, set page_cite
to the str cast of the page fallback chain when that chain is not
None, and default source to the short name. -/
def normalizeDoc (p : String) (d : Node) : Node :=
  { d with metadata :=
      { d.metadata with
        file_name := some (.str (pathName p))
        page_cite :=
          match pageChain d.metadata with
          | some v => some (.str v.pyStr)
          | none => d.metadata.page_cite
        source := pyOr d.metadata.source (some (.str (pathName p))) } }

/-- The per-file loop of _load_docs: accumulate the normalized
fragments of each file that loads, and skip (with only a log line) each
file whose load raises. -/
def loadedDocs (pdf_paths : List String)
    (loader : String → Except String (List Node)) : List Node :=
  pdf_paths.foldl (fun docs p =>
    match loader p with
    | .ok loaded => docs ++ loaded.map (normalizeDoc p)
    | .error _ => docs) []

/-- The function _load_docs: raise when no paths were discovered;
otherwise load each file, skipping failing ones; raise when no
fragments remain. -/
def load_docs (pdf_paths : List String)
    (loader : String → Except String (List Node)) :
    Except String (List Node) :=
  if pdf_paths = [] then .error noPdfsMsg
  else if loadedDocs pdf_paths loader = [] then .error noTextMsg
  else .ok (loadedDocs pdf_paths loader)

/-! Section: the function _init_index and the startup hook, src/app.py
lines 101 to 126. Embedding configuration, chunking and the call
VectorStoreIndex.from_documents are delegated to the external library;
the index is modelled by the loaded documents it was built from. -/

/-- The RuntimeError message for a missing API key. -/
def noKeyMsg : String := "Missing OPENAI_API_KEY in .env"

/-- The function _init_index: fail fast on a missing (absent or empty)
API key, then discover, load, and build the index. -/
def init_index (apiKey : Option String)
    (rootFiles sectionFiles : List String)
    (loader : String → Except String (List Node)) :
    Except String (List Node) :=
  if (apiKey.getD "") = "" then .error noKeyMsg
  else load_docs (discover_pdfs rootFiles sectionFiles) loader

/-- The startup hook _on_startup: build the index when the global is
still None; an error escaping _init_index leaves the global unset and
aborts startup, so the service never becomes ready. -/
def on_startup (cur : Option (List Node)) (apiKey : Option String)
    (rootFiles sectionFiles : List String)
    (loader : String → Except String (List Node)) :
    Except String (List Node) :=
  match cur with
  | some idx => .ok idx
  | none => init_index apiKey rootFiles sectionFiles loader

/-! Section: the function _format_sources, src/app.py lines 129 to 163. -/

/-- One entry of the citations list, holding source, page and snippet.
The source keeps the raw metadata value (the code never casts it); the
page always goes through the str cast. -/
structure Citation where
  source : MetaVal
  page : String
  snippet : String
deriving DecidableEq, Repr

/-- The source resolution of _format_sources: file_name or source or
(file_path and the Path name of file_path) or the placeholder
unknown.pdf. -/
def resolveSource (md : Metadata) : MetaVal :=
  match pyOr md.file_name
      (pyOr md.source (pyAnd md.file_path (fun v => .str (pathName v.pyStr)))) with
  | some v => if v.truthy then v else .str "unknown.pdf"
  | none => .str "unknown.pdf"

/-- The page resolution of _format_sources: the str cast of page_cite
or page_label or page_number or page or page_index or the placeholder
question mark. -/
def resolvePage (md : Metadata) : String :=
  match pyOr md.page_cite (pyOr md.page_label
      (pyOr md.page_number (pyOr md.page md.page_index))) with
  | some v => if v.truthy then v.pyStr else "?"
  | none => "?"

/-- The snippet of _format_sources: strip the chunk text, truncate to
360 characters and append one ellipsis character when longer. -/
def mkSnippet (text : String) : String :=
  let s := pyStrip text
  if s.length > 360 then String.mk (s.data.take 360) ++ "…" else s

/-- The function _format_sources: one citation per retrieved node, in
retrieval-rank order. -/
def format_sources (nodes : List Node) : List Citation :=
  nodes.map (fun n =>
    { source := resolveSource n.metadata
      page := resolvePage n.metadata
      snippet := mkSnippet n.text })

/-! Section: the POST handler ask, src/app.py lines 166 to 210. -/

/-- The fixed system instruction block. -/
def SYSTEM_INSTRUCTIONS : String :=
  "You answer only from the provided report PDFs in the index. " ++
  "If the information is not present, say you cannot find it in the report. " ++
  "Always include exact page numbers from the source documents. " ++
  "When the question mentions a figure or table, rely on the text and captions in the PDFs."

/-- The prompt ask sends to the query engine for question `q`. -/
def fullPrompt (q : String) : String :=
  SYSTEM_INSTRUCTIONS ++ "\n\n" ++
  "Answer in 1–3 short paragraphs (no bullet points). " ++
  "Be concise, specific, and grounded in the report. " ++
  "Include exact page numbers at the end as: Pages: p.X; p.Y.\n\n" ++
  "Question: " ++ q

/-- The Pages label of one citation: its source (as Python would
format it into a string) followed by a space, then p. and the page. -/
def citLabel (c : Citation) : String :=
  c.source.pyStr ++ " p." ++ c.page

/-- The consolidation loop of ask: append the label of each citation
in rank order, unless that label was already collected. -/
def pagesLabels (sources : List Citation) : List String :=
  sources.foldl (fun pages s =>
    if citLabel s ∈ pages then pages else pages ++ [citLabel s]) []

/-- An outcome of the ask handler: a JSON body with answer and
citations, or an HTTPException with a status code and a detail string
(converted by FastAPI into a structured error response, not a crash). -/
inductive AskResult where
  | ok (answer : String) (citations : List Citation)
  | err (status : Nat) (detail : String)
deriving DecidableEq, Repr

/-- The ask handler. `idx` is the module-level index global (`none`
before startup completes), `question` is the question field of the
request payload, and `query` is the query-engine call, whose
`Except.error` is the caught retrieval or generation exception. The
second component of the result records whether the index was queried. -/
def ask (idx : Option (List Node)) (question : Option String)
    (query : String → Except String (String × List Node)) :
    AskResult × Bool :=
  match idx with
  | none => (.err 500 "Index not ready", false)
  | some _ =>
    let q := pyStrip (question.getD "")
    if q = "" then (.err 400 "Missing question", false)
    else
      match query (fullPrompt q) with
      | .error e => (.err 500 ("QA error: " ++ e), true)
      | .ok (respText, nodes) =>
        let answer_text := pyStrip respText
        let sources := format_sources nodes
        let answer_text :=
          if sources = [] then answer_text
          else answer_text ++ "\n\nPages: " ++ String.intercalate "; " (pagesLabels sources)
        (.ok answer_text sources, true)

/-! Section: the citation rendering of the chat client,
src/ui_streamlit.py lines 58 to 63. -/

/-- The page suffix of a rendered citation header: the empty string
when the page equals the question-mark placeholder, and otherwise a
space, an opening parenthesis, p. and the page followed by a closing
parenthesis. -/
def renderPageSuffix (page : String) : String :=
  if page = "?" then "" else " (p." ++ page ++ ")"

/-- The expander header of the numbered rendered citation: the index,
a dot and a space, the source, then the page suffix. -/
def renderHeader (i : Nat) (src page : String) : String :=
  toString i ++ ". " ++ src ++ renderPageSuffix page

/-! Section: claims. Each claim gets one theorem, with a witness when
the theorem carries a hypothesis. -/

/-- C3: for every retrieved chunk, the snippet produced by
format_sources is the chunk text stripped of leading and trailing
whitespace; when the stripped text is longer than 360 characters the
snippet is exactly its first 360 characters followed by one ellipsis
character (total length 361), and otherwise the stripped text
unchanged. Stated as: format_sources snippets are mkSnippet of the
chunk text, mkSnippet is the conditional truncation of the stripped
text, and its length is the minimum of the stripped length and 361. -/
theorem snippet_truncation_spec (nodes : List Node) (text : String) :
    (format_sources nodes).map Citation.snippet = nodes.map (fun n => mkSnippet n.text) ∧
    mkSnippet text =
      (if (pyStrip text).length > 360 then String.mk ((pyStrip text).data.take 360) ++ "…"
       else pyStrip text) ∧
    (mkSnippet text).length = min (pyStrip text).length 361 := by
  refine ⟨by simp [format_sources], rfl, ?_⟩
  by_cases h : (pyStrip text).length > 360
  · have hd : (pyStrip text).data.length = (pyStrip text).length := rfl
    have h1 : ((pyStrip text).data.take 360).length = 360 := by
      rw [List.length_take]
      omega
    have h2 : mkSnippet text = String.mk ((pyStrip text).data.take 360) ++ "…" := by
      simp only [mkSnippet]
      rw [if_pos h]
    have he : ("…" : String).length = 1 := rfl
    rw [h2, String.length_append, he]
    simp only [String.length_mk, h1]
    omega
  · have h2 : mkSnippet text = pyStrip text := by
      simp only [mkSnippet]
      rw [if_neg h]
    rw [h2]
    omega

/-- C5: with the index built, a request whose question field is
missing, empty, or whitespace-only after stripping gets status 400
with detail Missing question, and the index is never queried (the
Boolean retrieval flag stays false). -/
theorem ask_empty_question_400 (idx : List Node) (question : Option String)
    (query : String → Except String (String × List Node))
    (h : pyStrip (question.getD "") = "") :
    ask (some idx) question query = (.err 400 "Missing question", false) := by
  simp [ask, h]

/-- C5 witness: a whitespace-only question on a ready index yields
status 400 and no retrieval. -/
theorem ask_empty_question_400_witness :
    ask (some []) (some "   ") (fun _ => .ok ("", [])) =
      (.err 400 "Missing question", false) :=
  ask_empty_question_400 [] (some "   ") (fun _ => .ok ("", [])) (by decide)

/-- C7: every request that arrives while the index global is still
None gets a reported error response (status 500, detail Index not
ready) rather than a crash, and neither retrieval nor generation runs
(the Boolean retrieval flag stays false). -/
theorem ask_index_not_ready_500 (question : Option String)
    (query : String → Except String (String × List Node)) :
    ask none question query = (.err 500 "Index not ready", false) := rfl

/-- C9: the output of discover_pdfs is duplicate-free and sorted by
the lexicographic string order, and two filesystem enumerations with
the same underlying set of paths produce the same ordered list. -/
theorem discover_pdfs_deterministic (r1 s1 r2 s2 : List String) :
    (discover_pdfs r1 s1).Nodup ∧
    List.Sorted (· ≤ ·) (discover_pdfs r1 s1) ∧
    ((r1 ++ s1).toFinset = (r2 ++ s2).toFinset →
      discover_pdfs r1 s1 = discover_pdfs r2 s2) :=
  ⟨Finset.sort_nodup _ _, Finset.sort_sorted _ _,
   fun h => by unfold discover_pdfs; rw [h]⟩

/-- C9 witness: two enumerations of the same three paths, with
different orders and duplicates, discover the same list. -/
theorem discover_pdfs_deterministic_witness :
    discover_pdfs ["data/b.pdf", "data/a.pdf"] ["data/a.pdf"] =
      discover_pdfs ["data/a.pdf"] ["data/b.pdf", "data/b.pdf"] :=
  (discover_pdfs_deterministic ["data/b.pdf", "data/a.pdf"] ["data/a.pdf"]
    ["data/a.pdf"] ["data/b.pdf", "data/b.pdf"]).2.2 (by decide)

/-- C10: a successful request for which retrieval returns zero source
nodes answers with the stripped model response, no Pages line
appended, and an empty citations list. -/
theorem ask_no_citations (idx : List Node) (question : Option String)
    (query : String → Except String (String × List Node)) (resp : String)
    (hq : pyStrip (question.getD "") ≠ "")
    (hret : query (fullPrompt (pyStrip (question.getD ""))) = .ok (resp, [])) :
    ask (some idx) question query = (.ok (pyStrip resp) [], true) := by
  simp [ask, hq, hret, format_sources]

/-- C10 witness: a concrete run whose retrieval returns no nodes ends
with the stripped answer and an empty citations list. -/
theorem ask_no_citations_witness :
    ask (some []) (some "What?") (fun _ => .ok (" Hello ", [])) =
      (.ok "Hello" [], true) :=
  (ask_no_citations [] (some "What?") (fun _ => .ok (" Hello ", []))
    " Hello " (by decide) rfl).trans (by decide)

/-- C8: a retrieved chunk whose metadata has none of the source keys
gets the placeholder unknown.pdf as citation source; one with none of
the page keys gets the question-mark placeholder as page; and the chat
client renders an empty page suffix exactly when the page equals that
placeholder. -/
theorem missing_metadata_placeholders (n : Node) (page : String) :
    (n.metadata.file_name = none → n.metadata.source = none →
      n.metadata.file_path = none →
      (format_sources [n]).map Citation.source = [.str "unknown.pdf"]) ∧
    (n.metadata.page_cite = none → n.metadata.page_label = none →
      n.metadata.page_number = none → n.metadata.page = none →
      n.metadata.page_index = none →
      (format_sources [n]).map Citation.page = ["?"]) ∧
    (renderPageSuffix page = "" ↔ page = "?") := by
  refine ⟨fun h1 h2 h3 => ?_, fun h1 h2 h3 h4 h5 => ?_, ?_, ?_⟩
  · simp [format_sources, resolveSource, h1, h2, h3, pyOr, pyAnd]
  · simp [format_sources, resolvePage, h1, h2, h3, h4, h5, pyOr]
  · intro h
    by_contra hne
    rw [renderPageSuffix, if_neg hne] at h
    have hlen := congrArg String.length h
    have e1 : (" (p." : String).length = 4 := rfl
    have e2 : (")" : String).length = 1 := rfl
    have e3 : ("" : String).length = 0 := rfl
    rw [String.length_append, String.length_append, e1, e2, e3] at hlen
    omega
  · intro h
    simp [renderPageSuffix, h]

/-- C8 witness: a node with empty metadata is cited as unknown.pdf
with the question-mark page, and that page suppresses the rendered
suffix. -/
theorem missing_metadata_placeholders_witness :
    (format_sources [({} : Node)]).map Citation.source = [.str "unknown.pdf"] ∧
    (format_sources [({} : Node)]).map Citation.page = ["?"] ∧
    (renderPageSuffix "?" = "" ↔ ("?" : String) = "?") := by
  have h := missing_metadata_placeholders {} "?"
  exact ⟨h.1 rfl rfl rfl, h.2.1 rfl rfl rfl rfl rfl, h.2.2⟩

/-- C4: a fragment whose metadata carries a non-empty string page
label keeps that label verbatim from loading through citation output:
after the _load_docs normalization, the citation page produced by
format_sources is exactly the label, with no numeric coercion. -/
theorem page_label_preserved (p : String) (md : Metadata) (text : String)
    (s : String) (hl : md.page_label = some (.str s)) (hs : s ≠ "") :
    (format_sources [normalizeDoc p { metadata := md, text := text }]).map
      Citation.page = [s] := by
  have hb : (MetaVal.str s).truthy = true := by
    simp [MetaVal.truthy, hs]
  simp [format_sources, resolvePage, normalizeDoc, pageChain, pyOr, hl, hb,
    MetaVal.pyStr]

/-- C4 witness: the roman-numeral label iv survives from load to
citation output. -/
theorem page_label_preserved_witness :
    (format_sources [normalizeDoc "data/report.pdf"
      { metadata := { page_label := some (.str "iv") }, text := "t" }]).map
      Citation.page = ["iv"] :=
  page_label_preserved "data/report.pdf" { page_label := some (.str "iv") }
    "t" "iv" rfl (by decide)

/-- Helper for C6: when every discovered file either fails to load or
yields no fragments, the accumulation loop of _load_docs ends empty. -/
theorem loadedDocs_eq_nil (paths : List String)
    (loader : String → Except String (List Node))
    (hall : ∀ p ∈ paths, ∀ l, loader p = .ok l → l = []) :
    loadedDocs paths loader = [] := by
  unfold loadedDocs
  have hgen : ∀ (ps : List String),
      (∀ p ∈ ps, ∀ l, loader p = .ok l → l = []) →
      ∀ acc : List Node,
      ps.foldl (fun docs p =>
        match loader p with
        | .ok loaded => docs ++ loaded.map (normalizeDoc p)
        | .error _ => docs) acc = acc := by
    intro ps
    induction ps with
    | nil => intro _ acc; rfl
    | cons p pr ih =>
      intro hall' acc
      rw [List.foldl_cons]
      have hstep : (match loader p with
          | .ok loaded => acc ++ loaded.map (normalizeDoc p)
          | .error _ => acc) = acc := by
        cases hlp : loader p with
        | ok l =>
          have hnil := hall' p (by simp) l hlp
          subst hnil
          simp
        | error e => rfl
      rw [hstep]
      exact ih (fun q hq l hl => hall' q (by simp [hq]) l hl) acc
  exact hgen paths hall []

/-- C6: loading with an empty discovery result raises the fatal
no-PDFs configuration error; loading a non-empty discovery result in
which, after skipping failing files, zero fragments remain raises the
fatal no-extractable-text error; and with a valid API key but empty
data directories the startup hook propagates the configuration error,
so the index global is never set and the service does not become
ready. -/
theorem empty_corpus_fatal (paths : List String)
    (loader : String → Except String (List Node)) (apiKey : String)
    (rootFiles sectionFiles : List String) :
    load_docs [] loader = .error noPdfsMsg ∧
    (paths ≠ [] → (∀ p ∈ paths, ∀ l, loader p = .ok l → l = []) →
      load_docs paths loader = .error noTextMsg) ∧
    (apiKey ≠ "" → rootFiles = [] → sectionFiles = [] →
      on_startup none (some apiKey) rootFiles sectionFiles loader =
        .error noPdfsMsg) := by
  refine ⟨rfl, fun hne hall => ?_, fun hk hr hs => ?_⟩
  · rw [load_docs, if_neg hne, loadedDocs_eq_nil paths loader hall]
    simp
  · subst hr
    subst hs
    have hd : discover_pdfs [] [] = [] := by
      unfold discover_pdfs
      simp [Finset.sort_empty]
    rw [on_startup, init_index, if_neg (by simpa using hk), hd]
    rfl

/-- C6 witness: one discovered file that fails to parse yields the
no-extractable-text error; an empty data directory makes startup
propagate the no-PDFs configuration error. -/
theorem empty_corpus_fatal_witness :
    load_docs [] (fun _ => Except.error "boom") = .error noPdfsMsg ∧
    load_docs ["data/a.pdf"] (fun _ => Except.error "boom") = .error noTextMsg ∧
    on_startup none (some "sk-key") [] [] (fun _ => Except.error "boom") =
      .error noPdfsMsg := by
  have h := empty_corpus_fatal ["data/a.pdf"] (fun _ => Except.error "boom")
    "sk-key" [] []
  refine ⟨h.1, h.2.1 (by decide) ?_, h.2.2 (by decide) rfl rfl⟩
  intro p hp l hl
  simp at hl

/-- Stated from the words of claim C1, for comparison with the code:
the canonical page citation is the value of the first candidate key
that is present with a non-null value, in the priority order
page_label, page_number, page, page_index, coerced to a string. -/
def specPageCite (md : Metadata) : Option String :=
  ([md.page_label, md.page_number, md.page, md.page_index].findSome? id).map
    MetaVal.pyStr

/-- The behaviour the code actually implements for the canonical page
citation: the first truthy value among page_label, page_number and
page in priority order; when none of those three is truthy, the
page_index value whenever that key is present, truthy or not. -/
def amendedPageCite (md : Metadata) : Option String :=
  match [md.page_label, md.page_number, md.page].findSome?
      (fun o => o.bind (fun v => if v.truthy then some v else none)) with
  | some v => some v.pyStr
  | none => md.page_index.map MetaVal.pyStr

/-- Helper for C1: the truthiness fallback chain of _load_docs agrees
with the first-truthy-then-page-index characterization. -/
theorem pageChain_eq_amended (md : Metadata) :
    (pageChain md).map MetaVal.pyStr = amendedPageCite md := by
  rcases md with ⟨pl, pn, pg, pi, pc, fn, src, fp⟩
  rcases pl with _ | vl <;> rcases pn with _ | vn <;> rcases pg with _ | vg <;>
    simp only [pageChain, amendedPageCite, pyOr, List.findSome?,
      Option.none_bind, Option.some_bind] <;>
    (try split_ifs) <;>
    simp_all

/-- C1 (amended): for every loaded fragment, _load_docs sets the
normalized page citation to the string cast of the first truthy value
among page_label, page_number and page in priority order; when none of
those is truthy it uses the page_index value whenever that key is
present with a non-null value (truthy or not); and when the whole
chain yields None the page_cite key is left untouched. A present but
falsy value (the integer zero or the empty string) of the first three
keys is skipped, unlike what the claim states. -/
theorem page_cite_amended (p : String) (d : Node) :
    (normalizeDoc p d).metadata.page_cite =
      (match amendedPageCite d.metadata with
       | some s => some (MetaVal.str s)
       | none => d.metadata.page_cite) := by
  have h := pageChain_eq_amended d.metadata
  show (match pageChain d.metadata with
        | some v => some (MetaVal.str v.pyStr)
        | none => d.metadata.page_cite) = _
  rw [← h]
  cases pageChain d.metadata with
  | some v => rfl
  | none => rfl

/-- C1 counterexample: a fragment whose metadata has the empty string
as page_label (present, non-null) and the integer 7 as page_number.
The claim requires the page citation to be the string cast of the
page_label value, the empty string; the code skips the falsy label and
stores the string 7. -/
theorem page_cite_spec_counterexample :
    (normalizeDoc "data/r.pdf"
      { metadata := { page_label := some (.str ""), page_number := some (.int 7) },
        text := "t" }).metadata.page_cite = some (.str "7") ∧
    specPageCite { page_label := some (.str ""), page_number := some (.int 7) } =
      some "" := by
  constructor
  · rfl
  · rfl

/-- First-occurrence de-duplication, written as the accumulation loop
of ask: keep an element only when it has not been seen before. -/
def firstDedup {α : Type _} [DecidableEq α] (l : List α) : List α :=
  l.foldl (fun acc x => if x ∈ acc then acc else acc ++ [x]) []

/-- Stated from the words of claim C2, for comparison with the code:
the Pages entries are one per distinct pair of source and page, kept
in first-occurrence order over the citations, each then formatted. -/
def specPagesEntries (cits : List Citation) : List String :=
  (firstDedup (cits.map (fun c => (c.source, c.page)))).map
    (fun pr => pr.1.pyStr ++ " p." ++ pr.2)

/-- Helper for C2: pushing one element through the accumulation loop. -/
theorem firstDedup_append_singleton {α : Type _} [DecidableEq α]
    (l : List α) (x : α) :
    firstDedup (l ++ [x]) =
      if x ∈ firstDedup l then firstDedup l else firstDedup l ++ [x] := by
  unfold firstDedup
  rw [List.foldl_append]
  rfl

/-- Helper for C2: first-occurrence de-duplication is last-occurrence
de-duplication of the reversed list, reversed back. -/
theorem firstDedup_eq_reverse_dedup {α : Type _} [DecidableEq α] (l : List α) :
    firstDedup l = (l.reverse.dedup).reverse := by
  induction l using List.reverseRecOn with
  | nil => rfl
  | append_singleton xs x ih =>
    rw [firstDedup_append_singleton, ih, List.reverse_append]
    by_cases hx : x ∈ xs
    · rw [if_pos (by simp [List.mem_reverse, List.mem_dedup, hx])]
      simp only [List.reverse_singleton, List.singleton_append]
      rw [List.dedup_cons_of_mem (by simpa using hx)]
    · rw [if_neg (by simp [List.mem_reverse, List.mem_dedup, hx])]
      simp only [List.reverse_singleton, List.singleton_append]
      rw [List.dedup_cons_of_not_mem (by simpa using hx), List.reverse_cons]

/-- Helper for C2: the de-duplicated label list has no duplicates. -/
theorem firstDedup_nodup {α : Type _} [DecidableEq α] (l : List α) :
    (firstDedup l).Nodup := by
  rw [firstDedup_eq_reverse_dedup]
  exact List.nodup_reverse.mpr (List.nodup_dedup _)

/-- Helper for C2: de-duplication keeps exactly the elements of the
original list. -/
theorem mem_firstDedup {α : Type _} [DecidableEq α] (a : α) (l : List α) :
    a ∈ firstDedup l ↔ a ∈ l := by
  rw [firstDedup_eq_reverse_dedup]
  simp [List.mem_reverse, List.mem_dedup]

/-- Helper for C2: de-duplication preserves the original order. -/
theorem firstDedup_sublist {α : Type _} [DecidableEq α] (l : List α) :
    (firstDedup l).Sublist l := by
  rw [firstDedup_eq_reverse_dedup]
  have h := (List.dedup_sublist l.reverse).reverse
  simpa using h

/-- Helper for C2: the consolidation loop of ask is first-occurrence
de-duplication of the formatted labels. -/
theorem pagesLabels_eq_firstDedup (cits : List Citation) :
    pagesLabels cits = firstDedup (cits.map citLabel) := by
  unfold pagesLabels firstDedup
  rw [List.foldl_map]

/-- C2 (amended): for every non-empty citation list, the answer
returned by ask is the stripped model response followed by an appended
Pages line whose entries are the formatted labels of the citations
de-duplicated by the formatted label string (not by the pair of source
and page), each distinct label exactly once, in first-occurrence order
over the citations iterated in retrieval-rank order, joined by a
semicolon and a space. The entry list is stated independently of the
loop as the reversed last-occurrence de-duplication of the reversed
label list; it has no duplicates, contains exactly the labels of the
citations, and is a sublist of the rank-ordered label list. -/
theorem ask_pages_line_amended (idx : List Node) (question : Option String)
    (query : String → Except String (String × List Node)) (resp : String)
    (nodes : List Node)
    (hq : pyStrip (question.getD "") ≠ "")
    (hret : query (fullPrompt (pyStrip (question.getD ""))) = .ok (resp, nodes))
    (hcit : format_sources nodes ≠ []) :
    ask (some idx) question query =
      (.ok (pyStrip resp ++ "\n\nPages: " ++ String.intercalate "; "
          ((((format_sources nodes).map citLabel).reverse.dedup).reverse))
        (format_sources nodes), true) ∧
    ((((format_sources nodes).map citLabel).reverse.dedup).reverse).Nodup ∧
    (∀ lbl, lbl ∈ (((format_sources nodes).map citLabel).reverse.dedup).reverse ↔
      lbl ∈ (format_sources nodes).map citLabel) ∧
    ((((format_sources nodes).map citLabel).reverse.dedup).reverse).Sublist
      ((format_sources nodes).map citLabel) := by
  have hkey : pagesLabels (format_sources nodes) =
      (((format_sources nodes).map citLabel).reverse.dedup).reverse := by
    rw [pagesLabels_eq_firstDedup, firstDedup_eq_reverse_dedup]
  refine ⟨?_, ?_, ?_, ?_⟩
  · simp [ask, hq, hret, hcit, hkey]
  · rw [← hkey, pagesLabels_eq_firstDedup]
    exact firstDedup_nodup _
  · intro lbl
    rw [← hkey, pagesLabels_eq_firstDedup]
    exact mem_firstDedup _ _
  · rw [← hkey, pagesLabels_eq_firstDedup]
    exact firstDedup_sublist _

/-- A sample retrieved node for the C2 witness. -/
def sampleNode : Node :=
  { metadata := { page_cite := some (.str "2"), file_name := some (.str "a.pdf") }
    text := "t" }

/-- C2 witness: a concrete run with one citation gets the Pages line
with its single label. -/
theorem ask_pages_line_amended_witness :
    ask (some []) (some "q") (fun _ => .ok ("R", [sampleNode])) =
      (.ok (pyStrip "R" ++ "\n\nPages: " ++ String.intercalate "; "
          ((((format_sources [sampleNode]).map citLabel).reverse.dedup).reverse))
        (format_sources [sampleNode]), true) :=
  (ask_pages_line_amended [] (some "q") (fun _ => .ok ("R", [sampleNode]))
    "R" [sampleNode] (by decide) rfl (by decide)).1

/-- A retrieved node whose citation is the source a with page 1 p.2,
for the C2 counterexample. -/
def collideNodeA : Node :=
  { metadata := { page_cite := some (.str "1 p.2"), file_name := some (.str "a") }
    text := "s" }

/-- A retrieved node whose citation is the source a p.1 with page 2,
for the C2 counterexample. -/
def collideNodeB : Node :=
  { metadata := { page_cite := some (.str "2"), file_name := some (.str "a p.1") }
    text := "s" }

/-- C2 counterexample: two citations with distinct pairs of source and
page whose formatted labels coincide. The claim requires the Pages
line to list each pair exactly once, giving two entries; the code
de-duplicates by the formatted label and emits a single entry, so the
produced answer differs from the one the claim describes. -/
theorem ask_pages_line_counterexample :
    ask (some []) (some "q") (fun _ => .ok ("R", [collideNodeA, collideNodeB])) =
      (.ok ("R\n\nPages: a p.1 p.2") (format_sources [collideNodeA, collideNodeB]),
        true) ∧
    (format_sources [collideNodeA, collideNodeB]).map
        (fun c => (c.source, c.page)) =
      [(.str "a", "1 p.2"), (.str "a p.1", "2")] ∧
    specPagesEntries (format_sources [collideNodeA, collideNodeB]) =
      ["a p.1 p.2", "a p.1 p.2"] ∧
    ("R\n\nPages: a p.1 p.2" : String) ≠
      "R" ++ "\n\nPages: " ++ String.intercalate "; "
        (specPagesEntries (format_sources [collideNodeA, collideNodeB])) := by
  refine ⟨by decide, by decide, by decide, by decide⟩
